import Mathlib

/-!
Verification of the macro-risk quadrant dashboard (`risk_quadrant_app.py`).

The script is a linear pipeline: load a spreadsheet (searching three
candidate paths), pick the row matching a user-selected date, extract
nine (sentiment, attention) pairs, classify each into one of four
quadrants relative to an attention threshold, and render a chart layout
plus a sorted, rounded detail table.

We embed the pipeline shallowly: cell values are rationals or NaN
(`PyVal`, with Python float comparison semantics: every comparison with
NaN is false), fallible steps return `Except`, and the streamlit cache
is explicit session state.
-/

namespace RiskQuadrant

/-- A spreadsheet cell value: a finite number (modelled as a rational) or
a missing value (`NaN`), with Python float comparison semantics. -/
inductive PyVal where
  | num (q : ℚ)
  | nan
deriving DecidableEq, Repr

/-- Python `x >= c` where `x` may be NaN: NaN compares false to everything. -/
def pyGe (x : PyVal) (c : ℚ) : Bool :=
  match x with
  | .num a => decide (c ≤ a)
  | .nan => false

/-- Python `x < c` where `x` may be NaN: NaN compares false to everything. -/
def pyLt (x : PyVal) (c : ℚ) : Bool :=
  match x with
  | .num a => decide (a < c)
  | .nan => false

/-- Quadrant label returned by the first branch of `get_quadrant`. -/
def quadI : String := "Ⅰ - 市场强势信号"

/-- Quadrant label returned by the second branch of `get_quadrant`. -/
def quadII : String := "Ⅱ - 市场恐慌/风险警报"

/-- Quadrant label returned by the third branch of `get_quadrant`. -/
def quadIII : String := "Ⅲ - 潜在风险未爆发"

/-- Quadrant label returned by the else branch of `get_quadrant`. -/
def quadIV : String := "Ⅳ - 冷门利好"

/-- `get_quadrant` (source lines 126–134): classifies one row by its
sentiment (`情绪值`) and attention (`关注度`) against the threshold.
The guards use Python float comparisons, so NaN fails every guard and
falls through to the `else` branch. -/
def get_quadrant (sent att : PyVal) (threshold : ℚ) : String :=
  if pyGe sent 0 && pyGe att threshold then quadI
  else if pyLt sent 0 && pyGe att threshold then quadII
  else if pyLt sent 0 && pyLt att threshold then quadIII
  else quadIV

end RiskQuadrant

namespace RiskQuadrant

/-- C1: on real (non-NaN) inputs, `get_quadrant` is total and each of the
four labels is returned exactly on its guard region: the guards are
mutually exclusive and exhaustive, and the result is always one of the
four quadrant labels. -/
theorem get_quadrant_total_and_exclusive (s a t : ℚ) :
    get_quadrant (.num s) (.num a) t ∈ [quadI, quadII, quadIII, quadIV] ∧
    (get_quadrant (.num s) (.num a) t = quadI ↔ (0 ≤ s ∧ t ≤ a)) ∧
    (get_quadrant (.num s) (.num a) t = quadII ↔ (s < 0 ∧ t ≤ a)) ∧
    (get_quadrant (.num s) (.num a) t = quadIII ↔ (s < 0 ∧ a < t)) ∧
    (get_quadrant (.num s) (.num a) t = quadIV ↔ (0 ≤ s ∧ a < t)) := by
  rcases le_or_lt 0 s with hs | hs <;> rcases le_or_lt t a with ha | ha
  · have hval : get_quadrant (.num s) (.num a) t = quadI := by
      unfold get_quadrant pyGe pyLt
      simp [hs, ha]
    rw [hval]
    exact ⟨by simp, iff_of_true rfl ⟨hs, ha⟩,
      iff_of_false (by decide) (fun h => absurd hs (not_le.mpr h.1)),
      iff_of_false (by decide) (fun h => absurd hs (not_le.mpr h.1)),
      iff_of_false (by decide) (fun h => absurd ha (not_le.mpr h.2))⟩
  · have hval : get_quadrant (.num s) (.num a) t = quadIV := by
      unfold get_quadrant pyGe pyLt
      simp [hs, not_le.mpr ha, not_lt.mpr hs]
    rw [hval]
    exact ⟨by simp, iff_of_false (by decide) (fun h => absurd ha (not_lt.mpr h.2)),
      iff_of_false (by decide) (fun h => absurd hs (not_le.mpr h.1)),
      iff_of_false (by decide) (fun h => absurd hs (not_le.mpr h.1)),
      iff_of_true rfl ⟨hs, ha⟩⟩
  · have hval : get_quadrant (.num s) (.num a) t = quadII := by
      unfold get_quadrant pyGe pyLt
      simp [hs, ha, not_le.mpr hs]
    rw [hval]
    exact ⟨by simp, iff_of_false (by decide) (fun h => absurd hs (not_lt.mpr h.1)),
      iff_of_true rfl ⟨hs, ha⟩,
      iff_of_false (by decide) (fun h => absurd ha (not_le.mpr h.2)),
      iff_of_false (by decide) (fun h => absurd hs (not_lt.mpr h.1))⟩
  · have hval : get_quadrant (.num s) (.num a) t = quadIII := by
      unfold get_quadrant pyGe pyLt
      simp [hs, ha, not_le.mpr hs, not_le.mpr ha]
    rw [hval]
    exact ⟨by simp, iff_of_false (by decide) (fun h => absurd hs (not_lt.mpr h.1)),
      iff_of_false (by decide) (fun h => absurd ha (not_lt.mpr h.2)),
      iff_of_true rfl ⟨hs, ha⟩,
      iff_of_false (by decide) (fun h => absurd hs (not_lt.mpr h.1))⟩

/-- C2: ties resolve toward the non-negative / high-attention branches:
`get_quadrant 0 t t = Ⅰ`, and any strictly negative sentiment with
attention exactly at the threshold classifies as `Ⅱ`. -/
theorem get_quadrant_tie_break (t s : ℚ) (hs : s < 0) :
    get_quadrant (.num 0) (.num t) t = quadI ∧
    get_quadrant (.num s) (.num t) t = quadII := by
  constructor
  · simp [get_quadrant, pyGe]
  · simp [get_quadrant, pyGe, pyLt, hs, not_le.mpr hs]

/-- Witness for C2 at sentiment `-0.0001` and threshold `0.3`. -/
theorem get_quadrant_tie_break_witness :
    get_quadrant (.num 0) (.num (3/10)) (3/10) = quadI ∧
    get_quadrant (.num (-1/10000)) (.num (3/10)) (3/10) = quadII :=
  get_quadrant_tie_break (3/10) (-1/10000) (by norm_num)

/-- One (category, sentiment, attention) record of the `risk_data` frame
(source lines 114–118). -/
structure Triple where
  cat : String
  sent : PyVal
  att : PyVal
deriving DecidableEq, Repr

/-- pandas sort key order: NaN sorts after every number (`na_position`
defaults to `last`), numbers by their value. `⊥` stands for NaN. -/
def toWB (x : PyVal) : WithBot ℚ :=
  match x with
  | .num a => (a : WithBot ℚ)
  | .nan => ⊥

/-- `x` may precede `y` in
`sort_values(by=[attention, sentiment], ascending=[False, False])`:
strictly larger attention first, ties broken by larger-or-equal
sentiment (NaN last). -/
def tripleBefore (x y : Triple) : Prop :=
  toWB y.att < toWB x.att ∨ (toWB x.att = toWB y.att ∧ toWB y.sent ≤ toWB x.sent)

instance : DecidableRel tripleBefore := fun x y => by
  unfold tripleBefore
  infer_instance

instance : IsTotal Triple tripleBefore := by
  constructor
  intro x y
  rcases lt_trichotomy (toWB x.att) (toWB y.att) with h | h | h
  · exact Or.inr (Or.inl h)
  · rcases le_total (toWB y.sent) (toWB x.sent) with hs | hs
    · exact Or.inl (Or.inr ⟨h, hs⟩)
    · exact Or.inr (Or.inr ⟨h.symm, hs⟩)
  · exact Or.inl (Or.inl h)

instance : IsTrans Triple tripleBefore := by
  constructor
  rintro x y z (h1 | ⟨h1e, h1s⟩) (h2 | ⟨h2e, h2s⟩)
  · exact Or.inl (lt_trans h2 h1)
  · exact Or.inl (h2e ▸ h1)
  · exact Or.inl (h1e ▸ h2)
  · exact Or.inr ⟨h1e.trans h2e, le_trans h2s h1s⟩

/-- `risk_data` (source lines 114–118): the frame of raw triples sorted
descending by attention (`关注度`), then descending by sentiment
(`情绪值`). -/
def risk_data (l : List Triple) : List Triple :=
  l.insertionSort tripleBefore

/-- Round-half-to-even to the nearest integer, the rounding rule of
numpy / pandas `round`. -/
def rhe (x : ℚ) : ℤ :=
  if x < (⌊x⌋ : ℚ) + 1/2 then ⌊x⌋
  else if (⌊x⌋ : ℚ) + 1/2 < x then ⌊x⌋ + 1
  else if 2 ∣ ⌊x⌋ then ⌊x⌋ else ⌊x⌋ + 1

/-- `round(x, 3)` on a number. -/
def round3q (x : ℚ) : ℚ :=
  (rhe (1000 * x) : ℚ) / 1000

/-- `Series.round(3)` on one cell: rounds numbers, keeps NaN. -/
def round3 (x : PyVal) : PyVal :=
  match x with
  | .num a => .num (round3q a)
  | .nan => .nan

/-- One displayed row of `formatted_risk_data`. -/
structure TableRow where
  cat : String
  sent : PyVal
  att : PyVal
  quadrant : String
deriving DecidableEq, Repr

/-- `formatted_risk_data` (source lines 121–136): copy of the sorted
`risk_data`, sentiment and attention rounded to 3 decimals, then
`get_quadrant` applied row-wise — i.e. to the rounded values. -/
def formatted_risk_data (l : List Triple) (threshold : ℚ) : List TableRow :=
  (risk_data l).map (fun x =>
    { cat := x.cat, sent := round3 x.sent, att := round3 x.att,
      quadrant := get_quadrant (round3 x.sent) (round3 x.att) threshold })

/-- A calendar date (the `date` column after `pd.to_datetime(...).dt.date`). -/
structure Date where
  year : ℕ
  month : ℕ
  day : ℕ
deriving DecidableEq, Repr

/-- One observation row of the spreadsheet: a date plus named cells. -/
structure Row where
  date : Date
  cols : List (String × PyVal)
deriving DecidableEq, Repr

/-- `risk_categories` (source line 65): the nine fixed risk categories. -/
def risk_categories : List String :=
  ["利率", "地缘政治", "技术", "政策", "汇率", "环境", "社会", "衰退", "通胀"]

/-- `selected_data[c]`: pandas label lookup on the selected row; a missing
label raises `KeyError`. -/
def lookupCol (r : Row) (c : String) : Except String PyVal :=
  match r.cols.find? (fun p => p.1 == c) with
  | some p => .ok p.2
  | none => .error "KeyError"

/-- The list comprehensions of source lines 66–67: look up one column per
category, aborting with the first `KeyError`. -/
def lookupAll (r : Row) (suffix : String) : List String → Except String (List PyVal)
  | [] => .ok []
  | c :: cs =>
    match lookupCol r (c ++ suffix) with
    | .error e => .error e
    | .ok v =>
      match lookupAll r suffix cs with
      | .error e => .error e
      | .ok vs => .ok (v :: vs)

/-- `sentiments` (source line 66): the nine `<cat>_情绪` cells. -/
def sentiments (r : Row) : Except String (List PyVal) :=
  lookupAll r "_情绪" risk_categories

/-- `attention` (source line 67): the nine `<cat>_关注度` cells. -/
def attention (r : Row) : Except String (List PyVal) :=
  lookupAll r "_关注度" risk_categories

/-- `selected_data` (source line 62): filter the table to the rows whose
date equals the selected date and take row 0 with `.iloc[0]`; an empty
filter result makes the unguarded positional access raise `IndexError`. -/
def selected_data (df : List Row) (d : Date) : Except String Row :=
  match (df.filter (fun r => decide (r.date = d))).head? with
  | some r => .ok r
  | none => .error "IndexError"

/-- Zero-pad to two digits, as `strftime` does for `%m` and `%d`. -/
def pad2 (n : ℕ) : String :=
  if n < 10 then "0" ++ toString n else toString n

/-- Zero-pad to four digits, as `strftime` does for `%Y`. -/
def pad4 (n : ℕ) : String :=
  if n < 10 then "000" ++ toString n
  else if n < 100 then "00" ++ toString n
  else if n < 1000 then "0" ++ toString n
  else toString n

/-- `selected_date.strftime("%Y-%m-%d")`. -/
def strftimeYMD (d : Date) : String :=
  pad4 d.year ++ "-" ++ pad2 d.month ++ "-" ++ pad2 d.day

/-- The geometric layout of the chart: axis ranges, divider lines,
quadrant annotation positions and the title. -/
structure Layout where
  xlim : ℚ × ℚ
  ylim : ℚ × ℚ
  hline : ℚ
  vline : ℚ
  annI : ℚ × ℚ
  annII : ℚ × ℚ
  annIII : ℚ × ℚ
  annIV : ℚ × ℚ
  title : String
deriving DecidableEq, Repr

/-- Chart layout computation (source lines 85–101): divider lines at
`y = attention_threshold` and `x = 0`, `xlim (-1.0, 1.0)`,
`ylim (0, 1.1)`, the four quadrant text positions, and the title with
the selected date formatted `%Y-%m-%d`. -/
def chart_layout (threshold : ℚ) (d : Date) : Layout :=
  { xlim := (-1, 1)
    ylim := (0, 11/10)
    hline := threshold
    vline := 0
    annI := (1/2, (1 + threshold)/2)
    annII := (-1/2, (1 + threshold)/2)
    annIII := (-1/2, threshold/2)
    annIV := (1/2, threshold/2)
    title := "宏观风险象限图（日期: " ++ strftimeYMD d ++ "）" }

end RiskQuadrant

namespace RiskQuadrant

/-- C3 counterexample: with raw sentiment `-0.0001` (rounded to `0.000`)
and attention `0.5`, threshold `0.3`, the table's quadrant column shows
`Ⅰ`, while the classifier on the original unrounded values gives `Ⅱ`:
the quadrant column is NOT computed from the unrounded values. -/
theorem formatted_quadrant_ne_raw_quadrant :
    (formatted_risk_data [⟨"利率", .num (-1/10000), .num (1/2)⟩] (3/10)).map
        TableRow.quadrant = [quadI] ∧
    get_quadrant (.num (-1/10000)) (.num (1/2)) (3/10) = quadII ∧
    quadI ≠ quadII := by
  refine ⟨?_, ?_, by decide⟩
  · norm_num [formatted_risk_data, risk_data, List.insertionSort, List.orderedInsert,
      round3, round3q, rhe, get_quadrant, pyGe, pyLt]
  · norm_num [get_quadrant, pyGe, pyLt]

/-- C3 amended: every row of the detail table comes from an input triple,
shows that triple's sentiment and attention rounded to 3 decimals, and
its quadrant label is `get_quadrant` applied to the ROUNDED sentiment
and attention (not the raw ones). -/
theorem formatted_risk_data_row_spec (l : List Triple) (t : ℚ) (row : TableRow)
    (hrow : row ∈ formatted_risk_data l t) :
    ∃ x ∈ l, row.cat = x.cat ∧ row.sent = round3 x.sent ∧ row.att = round3 x.att ∧
      row.quadrant = get_quadrant (round3 x.sent) (round3 x.att) t := by
  unfold formatted_risk_data at hrow
  rcases List.mem_map.mp hrow with ⟨x, hx, hmap⟩
  refine ⟨x, ?_, ?_, ?_, ?_, ?_⟩
  · exact (List.mem_insertionSort tripleBefore).mp hx
  all_goals rw [← hmap]

/-- Witness for C3's amended theorem on a one-row table. -/
theorem formatted_risk_data_row_spec_witness :
    ∃ x ∈ [(⟨"利率", .num (-1/10000), .num (1/2)⟩ : Triple)],
      (⟨"利率", .num 0, .num (1/2), quadI⟩ : TableRow).cat = x.cat ∧
      (⟨"利率", .num 0, .num (1/2), quadI⟩ : TableRow).sent = round3 x.sent ∧
      (⟨"利率", .num 0, .num (1/2), quadI⟩ : TableRow).att = round3 x.att ∧
      (⟨"利率", .num 0, .num (1/2), quadI⟩ : TableRow).quadrant =
        get_quadrant (round3 x.sent) (round3 x.att) (3/10) :=
  formatted_risk_data_row_spec [⟨"利率", .num (-1/10000), .num (1/2)⟩] (3/10)
    ⟨"利率", .num 0, .num (1/2), quadI⟩
    (by norm_num [formatted_risk_data, risk_data, List.insertionSort, List.orderedInsert,
      round3, round3q, rhe, get_quadrant, pyGe, pyLt])

/-- C4: the detail table keeps the order of `risk_data`, which is sorted
descending by raw attention with ties broken descending by raw
sentiment, and is a permutation of the input; on the spec's example
(attentions `[0.5, 0.5, 0.2]`, sentiments `[0.1, 0.3, 0.9]`) the
sentiment-0.3 row precedes the sentiment-0.1 row and the attention-0.2
row comes last. -/
theorem risk_data_sort_order :
    (∀ (l : List Triple) (t : ℚ),
      List.Sorted tripleBefore (risk_data l) ∧ (risk_data l).Perm l ∧
      (formatted_risk_data l t).map TableRow.cat = (risk_data l).map Triple.cat) ∧
    risk_data [⟨"a", .num (1/10), .num (1/2)⟩, ⟨"b", .num (3/10), .num (1/2)⟩,
        ⟨"c", .num (9/10), .num (1/5)⟩] =
      [⟨"b", .num (3/10), .num (1/2)⟩, ⟨"a", .num (1/10), .num (1/2)⟩,
        ⟨"c", .num (9/10), .num (1/5)⟩] := by
  refine ⟨fun l t => ⟨List.sorted_insertionSort tripleBefore l,
    List.perm_insertionSort tripleBefore l, ?_⟩,
    by norm_num [risk_data, List.insertionSort, List.orderedInsert, tripleBefore, toWB]⟩
  unfold formatted_risk_data
  rw [List.map_map]
  rfl

/-- The only error `lookupCol` ever produces is `KeyError`. -/
theorem lookupCol_error_eq (r : Row) (c : String) (e : String)
    (h : lookupCol r c = .error e) : e = "KeyError" := by
  unfold lookupCol at h
  cases hf : r.cols.find? (fun p => p.1 == c) <;> rw [hf] at h
  · exact (Except.error.injEq .. ▸ h).symm
  · cases h

/-- If any requested column is absent, the whole extraction fails with
`KeyError`. -/
theorem lookupAll_error (r : Row) (suffix : String) (cs : List String) (c : String)
    (hc : c ∈ cs) (h : lookupCol r (c ++ suffix) = .error "KeyError") :
    lookupAll r suffix cs = .error "KeyError" := by
  induction cs with
  | nil => exact absurd hc (List.not_mem_nil c)
  | cons d ds ih =>
    unfold lookupAll
    rcases List.mem_cons.mp hc with rfl | hmem
    · rw [h]
    · cases hd : lookupCol r (d ++ suffix) with
      | error e => rw [lookupCol_error_eq r (d ++ suffix) e hd]
      | ok v => rw [ih hmem]

/-- A row whose nine sentiment cells are all NaN (value present but
missing) and whose attention cells are all `0.5`. -/
def nanRow : Row :=
  ⟨⟨2024, 1, 1⟩,
    risk_categories.map (fun c => (c ++ "_情绪", PyVal.nan)) ++
    risk_categories.map (fun c => (c ++ "_关注度", PyVal.num (1/2)))⟩

/-- C5 counterexample: when a category's sentiment is present as NaN, the
pipeline does NOT fail: extraction succeeds, and `get_quadrant`
silently classifies the category as quadrant Ⅳ (every comparison with
NaN is false, so the `else` branch fires). -/
theorem nan_classified_silently :
    sentiments nanRow = .ok (List.replicate 9 .nan) ∧
    attention nanRow = .ok (List.replicate 9 (.num (1/2))) ∧
    get_quadrant .nan (.num (1/2)) (3/10) = quadIV ∧
    quadIV ∈ [quadI, quadII, quadIII, quadIV] := by
  exact ⟨rfl, rfl, rfl, by simp⟩

/-- C5 amended: a category whose sentiment OR attention column is ABSENT
does fail the pipeline (the lookup raises `KeyError` and aborts the
respective extraction), but a value present as NaN — in the sentiment
position, the attention position, or both — is never detected:
`get_quadrant` classifies the category as quadrant Ⅳ. -/
theorem missing_column_fails_nan_classified (r : Row) (c : String)
    (hc : c ∈ risk_categories) :
    (lookupCol r (c ++ "_情绪") = .error "KeyError" →
      sentiments r = .error "KeyError") ∧
    (lookupCol r (c ++ "_关注度") = .error "KeyError" →
      attention r = .error "KeyError") ∧
    (∀ a t, get_quadrant .nan a t = quadIV) ∧
    (∀ s t, get_quadrant s .nan t = quadIV) := by
  refine ⟨fun habs => lookupAll_error r "_情绪" risk_categories c hc habs,
    fun habs => lookupAll_error r "_关注度" risk_categories c hc habs,
    fun a t => ?_, fun s t => ?_⟩
  · simp [get_quadrant, pyGe, pyLt]
  · cases s <;> simp [get_quadrant, pyGe, pyLt]

/-- Witness for C5's amended theorem: a row with no columns at all fails
both extractions on the first category, while NaN in either position
classifies as Ⅳ. -/
theorem missing_column_fails_nan_classified_witness :
    sentiments ⟨⟨2024, 1, 1⟩, []⟩ = .error "KeyError" ∧
    attention ⟨⟨2024, 1, 1⟩, []⟩ = .error "KeyError" ∧
    get_quadrant .nan (.num (1/2)) (3/10) = quadIV ∧
    get_quadrant (.num (1/2)) .nan (3/10) = quadIV :=
  ⟨(missing_column_fails_nan_classified ⟨⟨2024, 1, 1⟩, []⟩ "利率" (by decide)).1 rfl,
    (missing_column_fails_nan_classified ⟨⟨2024, 1, 1⟩, []⟩ "利率" (by decide)).2.1 rfl,
    (missing_column_fails_nan_classified ⟨⟨2024, 1, 1⟩, []⟩ "利率" (by decide)).2.2.1
      (.num (1/2)) (3/10),
    (missing_column_fails_nan_classified ⟨⟨2024, 1, 1⟩, []⟩ "利率" (by decide)).2.2.2
      (.num (1/2)) (3/10)⟩

/-- C6 counterexample: on a table with no row for the requested date the
selector fails with `IndexError` — the error of the unguarded
`.iloc[0]` positional access — not with a `NotFound` error from a
defensive check. -/
theorem selected_data_error_is_index_error :
    selected_data [⟨⟨2024, 1, 1⟩, []⟩] ⟨2024, 1, 2⟩ = .error "IndexError" ∧
    ("IndexError" : String) ≠ "NotFound" :=
  ⟨rfl, by decide⟩

/-- C6 amended: the selector returns the FIRST row whose date matches
(also when several rows share the date), and when no row matches it
fails with the `IndexError` raised by the unguarded `.iloc[0]` access
(there is no defensive check and no `NotFound` error). -/
theorem selected_data_first_match (df : List Row) (d : Date) :
    (∀ r rs, df.filter (fun x => decide (x.date = d)) = r :: rs →
      selected_data df d = .ok r) ∧
    (df.filter (fun x => decide (x.date = d)) = [] →
      selected_data df d = .error "IndexError") := by
  constructor
  · intro r rs h
    unfold selected_data
    rw [h]
    rfl
  · intro h
    unfold selected_data
    rw [h]
    rfl

/-- Witness for C6's amended theorem: two rows share the date and the
first is returned; a date with no row gives `IndexError`. -/
theorem selected_data_first_match_witness :
    selected_data [⟨⟨2024, 1, 1⟩, []⟩, ⟨⟨2024, 1, 1⟩, [("x", .nan)]⟩] ⟨2024, 1, 1⟩ =
      .ok ⟨⟨2024, 1, 1⟩, []⟩ ∧
    selected_data [⟨⟨2024, 1, 1⟩, []⟩, ⟨⟨2024, 1, 1⟩, [("x", .nan)]⟩] ⟨2024, 1, 2⟩ =
      .error "IndexError" :=
  ⟨(selected_data_first_match [⟨⟨2024, 1, 1⟩, []⟩, ⟨⟨2024, 1, 1⟩, [("x", .nan)]⟩]
      ⟨2024, 1, 1⟩).1 ⟨⟨2024, 1, 1⟩, []⟩ [⟨⟨2024, 1, 1⟩, [("x", .nan)]⟩] rfl,
    (selected_data_first_match [⟨⟨2024, 1, 1⟩, []⟩, ⟨⟨2024, 1, 1⟩, [("x", .nan)]⟩]
      ⟨2024, 1, 2⟩).2 rfl⟩

/-- C7: for every threshold and date the chart layout has sentiment axis
`[-1.0, 1.0]`, attention axis `[0.0, 1.1]`, a horizontal divider at the
threshold and a vertical divider at sentiment 0, quadrant annotations
Ⅰ at `(0.5, (1+t)/2)`, Ⅱ at `(-0.5, (1+t)/2)`, Ⅲ at `(-0.5, t/2)`,
Ⅳ at `(0.5, t/2)`, and a title embedding the date as `YYYY-MM-DD`
(zero-padded, checked on 2024-03-07). -/
theorem chart_layout_spec (t : ℚ) (d : Date) :
    (chart_layout t d).xlim = (-1, 1) ∧
    (chart_layout t d).ylim = (0, 11/10) ∧
    (chart_layout t d).hline = t ∧
    (chart_layout t d).vline = 0 ∧
    (chart_layout t d).annI = (1/2, (1 + t)/2) ∧
    (chart_layout t d).annII = (-1/2, (1 + t)/2) ∧
    (chart_layout t d).annIII = (-1/2, t/2) ∧
    (chart_layout t d).annIV = (1/2, t/2) ∧
    (chart_layout t d).title = "宏观风险象限图（日期: " ++ strftimeYMD d ++ "）" ∧
    strftimeYMD ⟨2024, 3, 7⟩ = "2024-03-07" :=
  ⟨rfl, rfl, rfl, rfl, rfl, rfl, rfl, rfl, rfl, rfl⟩

end RiskQuadrant

namespace RiskQuadrant

/-- `possible_paths` (source lines 17–21): the three candidate locations
of `index.xlsx` — relative to the working directory, next to the
script itself, and the fixed deployment path. -/
def possible_paths (script_dir : String) : List String :=
  ["index.xlsx", script_dir ++ "/index.xlsx", "/mount/src/macrorisk/index.xlsx"]

/-- Python `"\n".join(...)`. -/
def joinLines : List String → String
  | [] => ""
  | [p] => p
  | p :: ps => p ++ "\n" ++ joinLines ps

/-- `load_data` (source lines 14–36), path probing: try the candidate
paths in order, read from the first that exists; if none exists, report
the `st.error` diagnostic listing every attempted path and return
`None` (modelled as the error case). -/
def load_data (pathExists : String → Bool) (readTable : String → List Row)
    (script_dir : String) : Except String (List Row) :=
  match (possible_paths script_dir).find? pathExists with
  | some p => .ok (readTable p)
  | none => .error ("未能找到数据文件。尝试过的路径：" ++
      joinLines (possible_paths script_dir))

/-- Source lines 40–41: `if df is None: st.stop()` — the session halts
exactly when `load_data` produced no table. -/
def session_halted (r : Except String (List Row)) : Bool :=
  match r with
  | .error _ => true
  | .ok _ => false

/-- The threshold slider configuration (source lines 45–51):
`min_value`, `max_value`, `value` (the default) and `step`. -/
structure SliderCfg where
  min_value : ℚ
  max_value : ℚ
  value : ℚ
  step : ℚ
deriving DecidableEq, Repr

/-- `attention_threshold` slider (source lines 45–51). -/
def attention_threshold_slider : SliderCfg :=
  { min_value := 0, max_value := 1, value := 3/10, step := 1/20 }

/-- `available_dates` (source line 54): pandas `unique()` keeps the
distinct dates in order of first appearance. -/
def available_dates (df : List Row) : List Date :=
  df.foldl (fun acc r => if r.date ∈ acc then acc else acc ++ [r.date]) []

/-- The date selectbox default (source lines 55–59):
`index=len(available_dates)-1`, i.e. the LAST element of
`available_dates`. -/
def selected_date_default (df : List Row) : Option Date :=
  (available_dates df).getLast?

/-- Calendar order on dates (spec's notion of "most recent"). -/
def dateLe (a b : Date) : Bool :=
  decide (a.year < b.year) || (decide (a.year = b.year) &&
    (decide (a.month < b.month) || (decide (a.month = b.month) && decide (a.day ≤ b.day))))

/-- The most recent date of a list (spec's claimed default). -/
def mostRecent (l : List Date) : Option Date :=
  l.foldl (fun acc d =>
    match acc with
    | none => some d
    | some m => if dateLe m d then some d else some m) none

/-- Streamlit session state: the `@st.cache_data` cache of `load_data`
(the function takes no arguments, so one slot). -/
structure Session where
  cache : Option (Except String (List Row))

/-- `@st.cache_data def load_data()`: the first call computes and stores
the result, later calls return the stored value. -/
def load_data_cached (pathExists : String → Bool) (readTable : String → List Row)
    (script_dir : String) (s : Session) : Except String (List Row) × Session :=
  match s.cache with
  | some r => (r, s)
  | none => (load_data pathExists readTable script_dir,
      ⟨some (load_data pathExists readTable script_dir)⟩)

/-- The pure part of one rendering pass given the load result
(source lines 40–137): stop if the load failed, select the row for the
date, extract the nine sentiment and attention cells, and produce the
chart layout and the formatted detail table. -/
def render_of (d : Date) (t : ℚ) (r : Except String (List Row)) :
    Option (Layout × List TableRow) :=
  match r with
  | .error _ => none
  | .ok df =>
    match selected_data df d with
    | .error _ => none
    | .ok row =>
      match sentiments row, attention row with
      | .ok ss, .ok avs =>
        some (chart_layout t d,
          formatted_risk_data
            ((risk_categories.zip (ss.zip avs)).map
              (fun p => Triple.mk p.1 p.2.1 p.2.2)) t)
      | .ok _, .error _ => none
      | .error _, _ => none

/-- One full rendering pass: cached load, then the pure pipeline. -/
def render_pass (pathExists : String → Bool) (readTable : String → List Row)
    (script_dir : String) (d : Date) (t : ℚ) (s : Session) :
    Option (Layout × List TableRow) × Session :=
  (render_of d t (load_data_cached pathExists readTable script_dir s).1,
    (load_data_cached pathExists readTable script_dir s).2)

end RiskQuadrant

namespace RiskQuadrant

/-- C8: the loader probes exactly the three candidate paths in order
(working directory, script directory, fixed deployment path), loads
from the first that exists, and when none exists it fails with the
diagnostic listing the attempted paths and the session halts. -/
theorem load_data_path_search (pe : String → Bool) (readTable : String → List Row)
    (dir : String) :
    possible_paths dir =
      ["index.xlsx", dir ++ "/index.xlsx", "/mount/src/macrorisk/index.xlsx"] ∧
    (pe "index.xlsx" = true →
      load_data pe readTable dir = .ok (readTable "index.xlsx")) ∧
    (pe "index.xlsx" = false → pe (dir ++ "/index.xlsx") = true →
      load_data pe readTable dir = .ok (readTable (dir ++ "/index.xlsx"))) ∧
    (pe "index.xlsx" = false → pe (dir ++ "/index.xlsx") = false →
      pe "/mount/src/macrorisk/index.xlsx" = true →
      load_data pe readTable dir = .ok (readTable "/mount/src/macrorisk/index.xlsx")) ∧
    (pe "index.xlsx" = false → pe (dir ++ "/index.xlsx") = false →
      pe "/mount/src/macrorisk/index.xlsx" = false →
      load_data pe readTable dir =
        .error ("未能找到数据文件。尝试过的路径：" ++ joinLines (possible_paths dir)) ∧
      session_halted (load_data pe readTable dir) = true) := by
  refine ⟨rfl, ?_, ?_, ?_, ?_⟩
  · intro h1
    simp [load_data, possible_paths, List.find?, h1]
  · intro h1 h2
    simp [load_data, possible_paths, List.find?, h1, h2]
  · intro h1 h2 h3
    simp [load_data, possible_paths, List.find?, h1, h2, h3]
  · intro h1 h2 h3
    have herr : load_data pe readTable dir =
        .error ("未能找到数据文件。尝试过的路径：" ++ joinLines (possible_paths dir)) := by
      simp [load_data, possible_paths, List.find?, h1, h2, h3]
    exact ⟨herr, by rw [herr]; rfl⟩

/-- Witness for C8: a filesystem where only the deployment path exists
loads from it; an empty filesystem yields the diagnostic and halts. -/
theorem load_data_path_search_witness :
    load_data (fun s => s == "/mount/src/macrorisk/index.xlsx") (fun _ => []) "/app" =
      .ok [] ∧
    load_data (fun _ => false) (fun _ => []) "/app" =
      .error ("未能找到数据文件。尝试过的路径：" ++ joinLines (possible_paths "/app")) ∧
    session_halted (load_data (fun _ => false) (fun _ => []) "/app") = true :=
  ⟨(load_data_path_search (fun s => s == "/mount/src/macrorisk/index.xlsx")
      (fun _ => []) "/app").2.2.2.1 (by decide) (by decide) (by decide),
    ((load_data_path_search (fun _ => false) (fun _ => []) "/app").2.2.2.2
      rfl rfl rfl).1,
    ((load_data_path_search (fun _ => false) (fun _ => []) "/app").2.2.2.2
      rfl rfl rfl).2⟩

/-- C9, code_bug evidence: the slider is (min 0.0, max 1.0, step 0.05,
default 0.3) as claimed, and the selector options are the distinct
dates; but on a table whose rows are dated [2024-01-02, 2024-01-01]
the default selection (`index = len - 1`, last element in order of
first appearance) is 2024-01-01, NOT the most recent date 2024-01-02 —
contradicting the claim and the source's own comment 默认选择最新日期. -/
theorem date_default_not_most_recent :
    attention_threshold_slider.min_value = 0 ∧
    attention_threshold_slider.max_value = 1 ∧
    attention_threshold_slider.step = 1/20 ∧
    attention_threshold_slider.value = 3/10 ∧
    available_dates [⟨⟨2024, 1, 2⟩, []⟩, ⟨⟨2024, 1, 1⟩, []⟩] =
      [⟨2024, 1, 2⟩, ⟨2024, 1, 1⟩] ∧
    selected_date_default [⟨⟨2024, 1, 2⟩, []⟩, ⟨⟨2024, 1, 1⟩, []⟩] =
      some ⟨2024, 1, 1⟩ ∧
    mostRecent (available_dates [⟨⟨2024, 1, 2⟩, []⟩, ⟨⟨2024, 1, 1⟩, []⟩]) =
      some ⟨2024, 1, 2⟩ ∧
    (⟨2024, 1, 1⟩ : Date) ≠ ⟨2024, 1, 2⟩ :=
  ⟨rfl, rfl, rfl, rfl, rfl, rfl, rfl, by decide⟩

/-- The `@st.cache_data` cache is stable: calling the cached loader again
in the state left by a first call returns the same result and state. -/
theorem load_data_cached_stable (pe : String → Bool) (readTable : String → List Row)
    (dir : String) (s : Session) :
    load_data_cached pe readTable dir ((load_data_cached pe readTable dir s).2) =
      load_data_cached pe readTable dir s := by
  cases s with
  | mk c => cases c <;> simp [load_data_cached]

/-- C10: running the full pass (cached load, row selection,
classification, layout, table) twice with identical inputs yields
identical outputs — the second run reads the cache filled by the first
and every later stage is a pure function of its inputs. -/
theorem render_pass_deterministic (pe : String → Bool) (readTable : String → List Row)
    (dir : String) (d : Date) (t : ℚ) (s0 : Session) :
    (render_pass pe readTable dir d t s0).1 =
      (render_pass pe readTable dir d t (render_pass pe readTable dir d t s0).2).1 := by
  simp only [render_pass]
  rw [load_data_cached_stable]

end RiskQuadrant
